import Mathlib

/-!
A shallow embedding of the semantic catalog search engine of this
repository: the query-side request handler (`src/api/search.ts`) and the
ingestion pipeline (`src/scripts/import-products.js`).

Numeric values that JavaScript represents as IEEE doubles are modelled as
rationals (`ℚ`); database integer columns as `Int`; SQL `NULL` and
JavaScript `null`/`undefined` as `Option`.  External services (embedding
model, vector store distance operator, text generation) are modelled as
explicit parameters or oracles, since their behaviour is outside the
repository.
-/

/-- JavaScript `Math.round`: round half toward positive infinity. -/
def jsRound (q : ℚ) : Int := ⌊q + 1/2⌋

/-- A JavaScript value, as relevant to the request body's `query` field. -/
inductive JsVal where
  | vStr : String → JsVal
  | vNum : ℚ → JsVal
  | vBool : Bool → JsVal
  | vNull : JsVal
  | vUndefined : JsVal
deriving DecidableEq

/-- JavaScript truthiness for `JsVal` (`""`, `0`, `false`, `null`,
`undefined` are falsy). -/
def jsTruthy : JsVal → Bool
  | .vStr s => s ≠ ""
  | .vNum n => n ≠ 0
  | .vBool b => b
  | .vNull => false
  | .vUndefined => false

/-- `typeof query === 'string'`. -/
def jsIsString : JsVal → Bool
  | .vStr _ => true
  | _ => false

/-! ## Constants from `src/api/search.ts` -/

def SIMILARITY_THRESHOLD : ℚ := 32/100

def POPULAR_SALES_THRESHOLD : Int := 50

def SCARCE_STOCK_THRESHOLD : Int := 5

def MAX_RESULTS : Nat := 50

/-! ## Database rows and `formatProduct` (`src/api/search.ts`) -/

/-- A row as returned by the vector-search SQL query: scalar columns of the
`products` table, the computed `similarity`, and the aggregated
`category_ids`.  Nullable columns are `Option`. -/
structure Row where
  id : Nat
  title : String
  full_title : String
  description : String
  url : String
  price : ℚ
  old_price : Option ℚ
  image : Option String
  type : String
  artist : Option String
  dimensions : Option String
  stock : Option Int
  stock_sold : Option Int
  similarity : Option ℚ
  category_ids : Option (List Nat)
deriving DecidableEq

/-- `row.stock_sold ? parseInt(row.stock_sold) : 0` — a falsy stored value
(`NULL` or `0`) yields `0`. -/
def stockSoldOf (row : Row) : Int :=
  match row.stock_sold with
  | some n => if n = 0 then 0 else n
  | none => 0

/-- `row.stock ? parseInt(row.stock) : null` — a falsy stored value
(`NULL` or `0`) yields `null`. -/
def stockOf (row : Row) : Option Int :=
  match row.stock with
  | some n => if n = 0 then none else some n
  | none => none

/-- The item shape produced by `formatProduct` for the API response. -/
structure OutProduct where
  id : Nat
  title : String
  fullTitle : String
  description : String
  url : String
  price : ℚ
  oldPrice : Option ℚ
  onSale : Bool
  discount : Int
  image : Option String
  type : String
  artist : Option String
  dimensions : Option String
  stock : Option Int
  stockSold : Int
  isPopular : Bool
  isScarce : Bool
  categories : List (Nat × String)
  similarity : Option ℚ
deriving DecidableEq

/-- `formatProduct` from `src/api/search.ts`, parameterized by the category
name lookup `getCategoryName` (defined in `lib/catalog-metadata.ts`, outside
this repository's source set).

Notes on the translation of JavaScript truthiness:
* `onSale: row.old_price && parseFloat(row.old_price) > parseFloat(row.price)`
  — when `old_price` is SQL `NULL` the expression is the falsy value `null`;
  we model the field as the `Bool` its truthiness denotes.  A stored numeric
  value arrives from the driver as a non-empty string, hence truthy, so
  `some op` always proceeds to the comparison.
* `discount` divides by `old_price`; `ℚ` division by zero is `0` here where
  JavaScript would produce an infinity, so statements about `discount`
  only ever assume a non-zero `old_price`. -/
def formatProduct (getCategoryName : Nat → String) (row : Row) : OutProduct :=
  let categories := (row.category_ids.getD []).map (fun i => (i, getCategoryName i))
  let stockSold := stockSoldOf row
  let stock := stockOf row
  let isPopular : Bool := stockSold ≥ POPULAR_SALES_THRESHOLD
  let isScarce : Bool :=
    match stock with
    | some n => n > 0 && n ≤ SCARCE_STOCK_THRESHOLD
    | none => false
  { id := row.id
    title := row.title
    fullTitle := row.full_title
    description := row.description
    url := row.url
    price := row.price
    oldPrice := row.old_price
    onSale := match row.old_price with
      | some op => op > row.price
      | none => false
    discount := match row.old_price with
      | some op => jsRound ((1 - row.price / op) * 100)
      | none => 0
    image := row.image
    type := row.type
    artist := row.artist
    dimensions := row.dimensions
    stock := stock
    stockSold := stockSold
    isPopular := isPopular
    isScarce := isScarce
    categories := categories
    similarity := match row.similarity with
      | some s => if s = 0 then none else some s
      | none => none }

/-! ## The vector-search SQL query (`src/api/search.ts`, handler step 2)

The `products` table row carries the embedding; `<=>` is the pgvector
cosine-distance operator, external to the repository, modelled as an
arbitrary distance function `dist`.  The SQL computes
`similarity = 1 - dist`, filters
`is_visible AND embedding IS NOT NULL AND similarity >= 0.32`,
orders by `dist ASC, stock_sold DESC NULLS LAST` and limits to 50 rows. -/

/-- A stored `products` row as seen by the SQL query (embedding included). -/
structure DbProduct where
  row : Row
  is_visible : Bool
  embedding : Option (List ℚ)
deriving DecidableEq

/-- `1 - (p.embedding <=> $1::vector)` for a product that passed the
`embedding IS NOT NULL` filter. -/
def simOf (dist : List ℚ → List ℚ → ℚ) (qv : List ℚ) (p : DbProduct) : ℚ :=
  1 - dist (p.embedding.getD []) qv

/-- `stock_sold DESC NULLS LAST`: `some x ≥ some y ↔ x ≥ y`, any number
sorts before `NULL`. -/
def ssGe : Option Int → Option Int → Bool
  | none, none => true
  | none, some _ => false
  | some _, none => true
  | some x, some y => x ≥ y

/-- The `ORDER BY` comparison: distance ascending (similarity descending),
then `stock_sold DESC NULLS LAST`. -/
def rowLe (dist : List ℚ → List ℚ → ℚ) (qv : List ℚ) (a b : DbProduct) : Bool :=
  if simOf dist qv a > simOf dist qv b then true
  else if simOf dist qv b > simOf dist qv a then false
  else ssGe a.row.stock_sold b.row.stock_sold

/-- The `WHERE` clause of the search query. -/
def passesFilter (dist : List ℚ → List ℚ → ℚ) (qv : List ℚ) (p : DbProduct) : Bool :=
  p.is_visible && p.embedding.isSome && simOf dist qv p ≥ SIMILARITY_THRESHOLD

/-- The similarity query of the handler: filter, order, cap at
`MAX_RESULTS`.  (The `LEFT JOIN`/`GROUP BY` only aggregates category ids,
which `Row.category_ids` already carries; it produces one output row per
qualifying product.) -/
def similarityQuery (dist : List ℚ → List ℚ → ℚ) (qv : List ℚ)
    (table : List DbProduct) : List DbProduct :=
  ((table.filter (passesFilter dist qv)).mergeSort (rowLe dist qv)).take MAX_RESULTS

/-! ## Advice generation (`src/api/search.ts`)

`generateAdviceMessage` and `generateEmptyStateMessage` call the external
text-generation service (`generateObject`); on success they return the
service's `object.advice`, on a thrown error they fall back to fixed local
strings.  The service outcome is modelled as `Option String` (`none` =
the call threw).  The string literals reproduce the source bytes exactly
(the emoji in the source file are double-encoded). -/

/-- The fallback of `generateAdviceMessage` (lines 68–74), keyed by the
result-count bucket: exactly 1 / at most 10 / more than 10. -/
def adviceFallback (total : Nat) : String :=
  if total = 1 then
    "‚ú® Er is 1 perfect product voor je gevonden!"
  else if total ≤ 10 then
    "üé® Ik heb " ++ toString total ++ " mooie producten voor je gevonden!"
  else
    "‚ú® Ik heb " ++ toString total ++ " producten gevonden! Bekijk ze allemaal en vind jouw favoriet."

/-- `generateAdviceMessage` ("results" mode): service success returns the
generated advice; a service failure yields the deterministic fallback.
The `query` argument only feeds the service prompt. -/
def generateAdviceMessage (svcResult : Option String) (query : String)
    (total : Nat) : String :=
  match svcResult with
  | some advice => advice
  | none =>
    let _ := query
    adviceFallback total

/-- The single fixed fallback of `generateEmptyStateMessage` (line 120). -/
def EMPTY_STATE_FALLBACK : String :=
  "‚ú® Wat leuk dat je hier bent! Laten we samen het perfecte kunstcadeau vinden. Vertel me wat meer: zoek je een beeld, schilderij, vaas of mok? Probeer bijvoorbeeld: \"kat beeld onder 50 euro\", \"sportbeeld max 100 euro\", of \"bloemen vaas onder 80 euro\"."

/-- `generateEmptyStateMessage` ("empty" mode): service success returns the
generated advice; a service failure yields the single fixed message. -/
def generateEmptyStateMessage (svcResult : Option String) (query : String) : String :=
  match svcResult with
  | some advice => advice
  | none =>
    let _ := query
    EMPTY_STATE_FALLBACK

/-! ## The request handler (`src/api/search.ts`, default export)

External effects are oracles in `Services`; the handler records which
external calls it issues, in order, so that "rejected before any external
call" is a statement about the trace. -/

/-- One external call issued by the handler. -/
inductive ExtCall where
  | embedCall
  | storeCall
  | genCall
deriving DecidableEq

/-- Oracles for the handler's external collaborators:
`embedResult = none` models the embedding call throwing;
`storeFails = true` models the SQL query throwing;
`genResult = none` models the text-generation call throwing
(recovered locally by the advice fallbacks). -/
structure Services where
  embedResult : Option (List ℚ)
  dist : List ℚ → List ℚ → ℚ
  table : List DbProduct
  storeFails : Bool
  genResult : Option String

/-- The response payload (a POST request that passed the method checks). -/
structure SearchResponse where
  status : Nat
  success : Bool
  error : Option String
  total : Nat
  showing : Nat
  items : List OutProduct
  advice : Option String
deriving DecidableEq

/-- The string content of a `JsVal` (the valid branch only sees `vStr`). -/
def jsStr : JsVal → String
  | .vStr s => s
  | _ => ""

/-- The search handler body (`src/api/search.ts` lines 182–251) for a POST
request with `req.body.query = body`: validate the query, then embed,
then run the similarity query, then generate advice, then format.
Returns the response and the trace of external calls issued. -/
def runHandler (svc : Services) (getCategoryName : Nat → String)
    (body : JsVal) : SearchResponse × List ExtCall :=
  if !jsTruthy body || !jsIsString body then
    ({ status := 400, success := false, error := some "Query required",
       total := 0, showing := 0, items := [], advice := none }, [])
  else
    match svc.embedResult with
    | none =>
      ({ status := 500, success := false, error := some "Search failed",
         total := 0, showing := 0, items := [], advice := none },
       [ExtCall.embedCall])
    | some qv =>
      if svc.storeFails then
        ({ status := 500, success := false, error := some "Search failed",
           total := 0, showing := 0, items := [], advice := none },
         [ExtCall.embedCall, ExtCall.storeCall])
      else
        let rows := similarityQuery svc.dist qv svc.table
        let total := rows.length
        let advice :=
          if total = 0 then generateEmptyStateMessage svc.genResult (jsStr body)
          else generateAdviceMessage svc.genResult (jsStr body) total
        ({ status := 200, success := true, error := none,
           total := total, showing := total,
           items := rows.map (fun p => formatProduct getCategoryName p.row),
           advice := some advice },
         [ExtCall.embedCall, ExtCall.storeCall, ExtCall.genCall])

/-! ## Ingestion pipeline (`src/scripts/import-products.js`) -/

/-- Suffix after the first `'>'` (used by the HTML-strip scanner). -/
def afterGt (cs : List Char) : List Char :=
  (cs.dropWhile (fun c => c ≠ '>')).drop 1

/-- `replace(/<[^>]*>/g, '')` on a character list: at a `'<'` that is
followed by some `'>'`, the regex consumes through the first `'>'`;
any other character (including a `'<'` with no closing `'>'` anywhere
after it, where no further match is possible) is kept.  The `fuel`
argument only bounds the recursion (each step strictly shortens the list,
so fuel `cs.length` never runs out); it keeps the definition structurally
recursive and hence kernel-computable. -/
def stripHtmlGo : Nat → List Char → List Char
  | 0, cs => cs
  | _ + 1, [] => []
  | fuel + 1, c :: rest =>
    if c = '<' ∧ rest.contains '>' then stripHtmlGo fuel (afterGt rest)
    else c :: stripHtmlGo fuel rest

/-- `s.replace(/<[^>]*>/g, '')`. -/
def stripHtml (s : String) : String := String.mk (stripHtmlGo s.data.length s.data)

/-- ASCII digit (`\d`). -/
def isDigitCh (c : Char) : Bool := '0' ≤ c ∧ c ≤ '9'

/-- `\s` (ASCII range). -/
def isSpaceCh (c : Char) : Bool :=
  c = ' ' ∨ c = '\t' ∨ c = '\n' ∨ c = '\r' ∨ c = '\x0b' ∨ c = '\x0c'

/-- `\w` — a word character, for `\b` boundaries. -/
def isWordCh (c : Char) : Bool :=
  ('a' ≤ c ∧ c ≤ 'z') ∨ ('A' ≤ c ∧ c ≤ 'Z') ∨ isDigitCh c ∨ c = '_'

/-- JavaScript `String.prototype.trim` on a character list. -/
def jsTrim (cs : List Char) : List Char :=
  (((cs.dropWhile isSpaceCh).reverse).dropWhile isSpaceCh).reverse

/-- JavaScript `String.prototype.trim`. -/
def jsTrimStr (s : String) : String := String.mk (jsTrim s.data)

/-- A raw catalog product record (from `data/products.json`).
`brandId`/`brandTitle` model `product.brand?.resource?.id` and
`product.brand?.title`; `imageSrc` models `product.image?.src`. -/
structure RawProduct where
  id : Nat
  title : String
  fulltitle : Option String
  description : Option String
  content : Option String
  url : String
  brandId : Option Nat
  brandTitle : Option String
  imageSrc : Option String
  isVisible : Bool
deriving DecidableEq

/-- A `categories-products.json` link record (`cp.product.resource.id`,
`cp.category.resource.id`). -/
structure CatLink where
  productId : Nat
  categoryId : Nat
deriving DecidableEq

/-- A `tags-products.json` link record. -/
structure TagLink where
  productId : Nat
  tagId : Nat
deriving DecidableEq

/-- A `categories.json` record. -/
structure CatRec where
  id : Nat
  title : String
deriving DecidableEq

/-- A `tags.json` record. -/
structure TagRec where
  id : Nat
  title : String
  url : Option String
  isVisible : Bool
deriving DecidableEq

/-- A `brands.json` record. -/
structure BrandRec where
  id : Nat
  title : String
deriving DecidableEq

/-- A `variants.json` record. `productId` models
`variant.product?.resource?.id`; the numeric fields hold the parsed
values (`none` for a missing or unparseable field). -/
structure VariantRec where
  productId : Option Nat
  isDefault : Bool
  priceIncl : Option ℚ
  oldPriceIncl : Option ℚ
  stockLevel : Option Int
  stockSold : Option Int
deriving DecidableEq

/-- The default-variant data kept in `variantMap`. -/
structure VariantInfo where
  priceIncl : ℚ
  oldPriceIncl : Option ℚ
  stock : Int
  stockSold : Int
deriving DecidableEq

/-- The `variantMap` entry built from one variant record:
`priceIncl: parseFloat(variant.priceIncl) || 0` (missing/NaN → 0),
`oldPriceIncl: variant.oldPriceIncl ? parseFloat(...) : null`,
`stock: variant.stockLevel || 0`, `stockSold: variant.stockSold || 0`. -/
def variantInfoOf (v : VariantRec) : VariantInfo :=
  { priceIncl := v.priceIncl.getD 0
    oldPriceIncl := v.oldPriceIncl
    stock := v.stockLevel.getD 0
    stockSold := v.stockSold.getD 0 }

/-- `variantMap` (lines 34–45): a `forEach` of `Map.set`, keeping only
records with a truthy product id (`0` is falsy) and `isDefault`; a later
record for the same product id overwrites an earlier one. -/
def variantMapOf (variants : List VariantRec) : Nat → Option VariantInfo :=
  variants.foldl
    (fun m v =>
      match v.productId with
      | some pid =>
        if pid ≠ 0 ∧ v.isDefault then
          fun i => if i = pid then some (variantInfoOf v) else m i
        else m
      | none => m)
    (fun _ => none)

/-- `categoryMap` (categoryId → category title). -/
def categoryMapOf (categories : List CatRec) : Nat → Option String :=
  categories.foldl
    (fun m cat => fun i => if i = cat.id then some cat.title else m i)
    (fun _ => none)

/-- `brandMap` (brandId → brand title). -/
def brandMapOf (brands : List BrandRec) : Nat → Option String :=
  brands.foldl
    (fun m b => fun i => if i = b.id then some b.title else m i)
    (fun _ => none)

/-- `tagMap` (lines 68–74): only visible tags are entered. -/
def tagMapOf (tags : List TagRec) : Nat → Option String :=
  tags.foldl
    (fun m t =>
      if t.isVisible then fun i => if i = t.id then some t.title else m i
      else m)
    (fun _ => none)

/-- The static data the import script reads, bundled. -/
structure ImportCtx where
  categoriesProducts : List CatLink
  tagsProducts : List TagLink
  categories : List CatRec
  tags : List TagRec
  brands : List BrandRec
  variants : List VariantRec

/-- JavaScript `.filter(Boolean)` over values that are a string or
`undefined`: drops `undefined` and the empty string. -/
def jsFilterBoolean (l : List (Option String)) : List String :=
  l.filterMap (fun o =>
    match o with
    | some s => if s = "" then none else some s
    | none => none)

/-- Category ids linked to a product (`getProductCategories`, also the
first step of `buildEmbeddingText`). -/
def getProductCategories (ctx : ImportCtx) (productId : Nat) : List Nat :=
  (ctx.categoriesProducts.filter (fun cp => cp.productId = productId)).map
    (fun cp => cp.categoryId)

/-- Tag ids linked to a product (`getProductTags`). -/
def getProductTags (ctx : ImportCtx) (productId : Nat) : List Nat :=
  (ctx.tagsProducts.filter (fun tp => tp.productId = productId)).map
    (fun tp => tp.tagId)

/-- `buildEmbeddingText` (lines 78–113): title, full title, HTML-stripped
description, HTML-stripped content, brand name resolved through
`brandMap` (a falsy — zero — brand id yields `null`), resolved category
names, resolved (visible) tag names; `.filter(Boolean)` drops missing and
empty parts; joined with a single space and trimmed. -/
def buildEmbeddingText (ctx : ImportCtx) (product : RawProduct) : String :=
  let categoryNames := jsFilterBoolean
    ((getProductCategories ctx product.id).map (categoryMapOf ctx.categories))
  let tagNames := jsFilterBoolean
    ((getProductTags ctx product.id).map (tagMapOf ctx.tags))
  let brandName : Option String :=
    match product.brandId with
    | some bid => if bid ≠ 0 then brandMapOf ctx.brands bid else none
    | none => none
  let parts := jsFilterBoolean
    ([some product.title, product.fulltitle,
      product.description.map stripHtml, product.content.map stripHtml,
      brandName]
     ++ categoryNames.map some ++ tagNames.map some)
  jsTrimStr (String.intercalate " " parts)

/-- The spec's description of the embedding-input text, written from the
spec's words for comparison with `buildEmbeddingText`: "concatenation,
space-joined, of: title, full title, HTML-stripped description,
HTML-stripped long-form content, resolved brand name, all resolved
category names for this product, all resolved tag names for this product.
Any missing field is omitted, not inserted as a placeholder."  A field
that is absent, unresolvable, or empty counts as missing. -/
def specEmbeddingText (ctx : ImportCtx) (product : RawProduct) : String :=
  let fieldsInOrder : List (Option String) :=
    [some product.title,
     product.fulltitle,
     product.description.map stripHtml,
     product.content.map stripHtml,
     (match product.brandId with
      | some bid => if bid ≠ 0 then brandMapOf ctx.brands bid else none
      | none => none)]
    ++ ((getProductCategories ctx product.id).map (categoryMapOf ctx.categories))
    ++ ((getProductTags ctx product.id).map (tagMapOf ctx.tags))
  String.intercalate " " (jsFilterBoolean fieldsInOrder)

/-! ## Dimension extraction (`extractDimensions`, lines 126–159)

The four regular expressions are modelled as deterministic scanners over
the character list.  Where a regex quantifier could in principle
backtrack, the follow-set makes the greedy choice the only viable one
(digits are never followed by a digit-consuming alternative; the
whitespace runs are always followed by a non-whitespace literal), so a
committed scanner matches the regex semantics.  `text.match(re)` without
the global flag returns the leftmost match; the scanners try each start
position left to right. -/

/-- Consume a literal (given lowercase) case-insensitively. -/
def matchLit : List Char → List Char → Option (List Char)
  | [], cs => some cs
  | _ :: _, [] => none
  | k :: ks, c :: cs => if c.toLower = k then matchLit ks cs else none

/-- Consume `\s*cm` (case-insensitively), returning the rest. -/
def matchSpacesCm (cs : List Char) : Option (List Char) :=
  match (cs.span isSpaceCh).2 with
  | c :: m :: rest => if c.toLower = 'c' ∧ m.toLower = 'm' then some rest else none
  | _ => none

/-- Consume `(\d+(?:,\d+)?)`, returning the captured slice and the rest. -/
def matchNum (cs : List Char) : Option (List Char × List Char) :=
  let (ds, r) := cs.span isDigitCh
  if ds.isEmpty then none
  else
    match r with
    | ',' :: r2 =>
      let (ds2, r3) := r2.span isDigitCh
      if ds2.isEmpty then some (ds, r) else some (ds ++ ',' :: ds2, r3)
    | _ => some (ds, r)

/-- Consume `\s*x\s*\d+` (case-insensitive `x`), returning the consumed
slice and the rest. -/
def matchXTail (cs : List Char) : Option (List Char × List Char) :=
  let (s1, r1) := cs.span isSpaceCh
  match r1 with
  | x :: r2 =>
    if x.toLower = 'x' then
      let (s2, r3) := r2.span isSpaceCh
      let (ds, r4) := r3.span isDigitCh
      if ds.isEmpty then none else some (s1 ++ x :: (s2 ++ ds), r4)
    else none
  | [] => none

/-- Consume `(\d+\s*x\s*\d+(?:\s*x\s*\d+)?)`, returning the captured slice
and the rest. -/
def matchXDims (cs : List Char) : Option (List Char × List Char) :=
  let (d1, r1) := cs.span isDigitCh
  if d1.isEmpty then none
  else
    match matchXTail r1 with
    | none => none
    | some (t1, r2) =>
      match matchXTail r2 with
      | some (t2, r3) => some (d1 ++ t1 ++ t2, r3)
      | none => some (d1 ++ t1, r2)

/-- Pattern 1, `/\b(\d+\s*x\s*\d+(?:\s*x\s*\d+)?)\s*cm\b/i`, tried at one
start position; `prev` is the character before the position (for `\b`). -/
def p1At (prev : Option Char) (cs : List Char) : Option (List Char) :=
  if (match prev with | some p => isWordCh p | none => false) then none
  else
    match matchXDims cs with
    | none => none
    | some (cap, r) =>
      match matchSpacesCm r with
      | none => none
      | some r2 =>
        match r2 with
        | [] => some cap
        | c :: _ => if isWordCh c then none else some cap

/-- First alternative of a list of attempts (regex alternation order). -/
def tryEach {α β : Type} (f : α → Option β) : List α → Option β
  | [] => none
  | a :: rest =>
    match f a with
    | some b => some b
    | none => tryEach f rest

/-- The labels of pattern 2 (lowercase). -/
def p2Keywords : List (List Char) :=
  [['h','o','o','g','t','e'], ['d','i','a','m','e','t','e','r'],
   ['b','r','e','e','d','t','e'], ['l','e','n','g','t','e'],
   ['a','f','m','e','t','i','n','g']]

/-- One alternative of pattern 2,
`/(?:hoogte|diameter|breedte|lengte|afmeting)[:\s]*(\d+(?:,\d+)?)\s*cm/i`. -/
def p2Try (kw : List Char) (cs : List Char) : Option (List Char) :=
  match matchLit kw cs with
  | none => none
  | some r1 =>
    let r2 := (r1.span (fun c => c = ':' ∨ isSpaceCh c)).2
    match matchNum r2 with
    | none => none
    | some (cap, r3) =>
      match matchSpacesCm r3 with
      | some _ => some cap
      | none => none

/-- Pattern 2 tried at one start position. -/
def p2At (cs : List Char) : Option (List Char) :=
  tryEach (fun kw => p2Try kw cs) p2Keywords

/-- The `n?` after `afmetinge` in pattern 3: consume an `n`/`N` if
present (the greedy choice; on failure of the rest the fallback without
the `n` would need a digit where the `n` stands, so it never succeeds). -/
def dropOptN (cs : List Char) : List Char :=
  match cs with
  | c :: rest => if c.toLower = 'n' then rest else c :: rest
  | [] => []

/-- Pattern 3, `/afmetingen?[:\s]*(\d+\s*x\s*\d+(?:\s*x\s*\d+)?)\s*cm/i`,
tried at one start position. -/
def p3At (cs : List Char) : Option (List Char) :=
  match matchLit ['a','f','m','e','t','i','n','g','e'] cs with
  | none => none
  | some r1 =>
    let r2 := ((dropOptN r1).span (fun c => c = ':' ∨ isSpaceCh c)).2
    match matchXDims r2 with
    | none => none
    | some (cap, r3) =>
      match matchSpacesCm r3 with
      | some _ => some cap
      | none => none

/-- The optional heads of pattern 4 in regex preference order
(`circa`, `ca.`, `ca`, `ongeveer`, empty). -/
def p4Heads : List (List Char) :=
  [['c','i','r','c','a'], ['c','a','.'], ['c','a'],
   ['o','n','g','e','v','e','e','r'], []]

/-- One alternative of pattern 4,
`/(?:circa|ca\.?|ongeveer)?\s*(\d+(?:,\d+)?)\s*cm(?:\s+hoog)?/i`
(the trailing optional group affects neither success nor the capture). -/
def p4Try (kw : List Char) (cs : List Char) : Option (List Char) :=
  match matchLit kw cs with
  | none => none
  | some r1 =>
    let r2 := (r1.span isSpaceCh).2
    match matchNum r2 with
    | none => none
    | some (cap, r3) =>
      match matchSpacesCm r3 with
      | some _ => some cap
      | none => none

/-- Pattern 4 tried at one start position. -/
def p4At (cs : List Char) : Option (List Char) :=
  tryEach (fun kw => p4Try kw cs) p4Heads

/-- Leftmost match of pattern 1 (carries the previous character for
the leading `\b`). -/
def scanP1 : Option Char → List Char → Option (List Char)
  | _, [] => none
  | prev, c :: rest =>
    match p1At prev (c :: rest) with
    | some cap => some cap
    | none => scanP1 (some c) rest

/-- Leftmost match of a boundary-free pattern. -/
def scanPat (pAt : List Char → Option (List Char)) : List Char → Option (List Char)
  | [] => none
  | c :: rest =>
    match pAt (c :: rest) with
    | some cap => some cap
    | none => scanPat pAt rest

/-- `/\d\s*x\s*\d/` (case-sensitive `x`) tried at one start position. -/
def xTestAt (cs : List Char) : Bool :=
  match cs with
  | c :: r1 =>
    if isDigitCh c then
      match (r1.span isSpaceCh).2 with
      | x :: r3 =>
        if x = 'x' then
          match (r3.span isSpaceCh).2 with
          | d :: _ => isDigitCh d
          | [] => false
        else false
      | [] => false
    else false
  | [] => false

/-- `/\d\s*x\s*\d/.test(dimension)`. -/
def xTest : List Char → Bool
  | [] => false
  | c :: rest => xTestAt (c :: rest) || xTest rest

/-- JavaScript `replace(',', '.')`: only the first occurrence. -/
def replaceFirstComma : List Char → List Char
  | [] => []
  | c :: rest => if c = ',' then '.' :: rest else c :: replaceFirstComma rest

/-- `dimension.endsWith('cm')` (case-sensitive). -/
def endsWithCm (cs : List Char) : Bool :=
  match cs.reverse with
  | m :: c :: _ => c = 'c' ∧ m = 'm'
  | _ => false

/-- The normalization applied to a raw capture (lines 147–153):
trim, comma→dot, and append `" cm"` to a single-axis value. -/
def normalizeDim (cap : List Char) : String :=
  let dim0 := jsTrim cap
  let dim1 := replaceFirstComma dim0
  if ¬ xTest dim1 ∧ ¬ endsWithCm dim1 then String.mk (dim1 ++ [' ', 'c', 'm'])
  else String.mk dim1

/-- The pattern loop of `extractDimensions`: the first pattern (in source
order) with a match anywhere in the text wins; its first capture group is
normalized. -/
def extractDimsFromText (text : String) : Option String :=
  let cs := text.data
  match scanP1 none cs with
  | some cap => some (normalizeDim cap)
  | none =>
    match scanPat p2At cs with
    | some cap => some (normalizeDim cap)
    | none =>
      match scanPat p3At cs with
      | some cap => some (normalizeDim cap)
      | none =>
        match scanPat p4At cs with
        | some cap => some (normalizeDim cap)
        | none => none

/-- `extractDimensions(product)`: HTML-stripped description and content,
`.filter(Boolean).join(' ')`, then the pattern loop. -/
def extractDimensions (product : RawProduct) : Option String :=
  let text := String.intercalate " "
    (jsFilterBoolean [product.description.map stripHtml, product.content.map stripHtml])
  extractDimsFromText text

/-! ## Upsert into the vector store (`processBatch`, lines 196–281) -/

/-- `getArtist` (lines 116–123): a falsy (zero/absent) brand id yields
`null`; otherwise `brandMap.get(id) || null`. -/
def getArtist (ctx : ImportCtx) (product : RawProduct) : Option String :=
  match product.brandId with
  | some bid =>
    if bid ≠ 0 then
      match brandMapOf ctx.brands bid with
      | some s => if s = "" then none else some s
      | none => none
    else none
  | none => none

/-- A stored `products` row as written by the import (scalar columns and
the embedding; `updated_at`/`created_at` timestamps are not modelled). -/
structure StoredProduct where
  id : Nat
  title : String
  full_title : String
  description : String
  content : String
  url : String
  brand : Option String
  artist : Option String
  dimensions : Option String
  price : ℚ
  old_price : Option ℚ
  stock : Int
  is_visible : Bool
  image : Option String
  stock_sold : Int
  type : String
  embedding : List ℚ
deriving DecidableEq

/-- The vector store: the `products` table keyed by id, and the two join
tables as row lists. -/
structure Store where
  products : Nat → Option StoredProduct
  product_categories : List (Nat × Nat)
  product_tags : List (Nat × Nat)

/-- `s || fallback` for an optional string (empty string is falsy). -/
def jsStrOr (a : Option String) (fallback : String) : String :=
  match a with
  | some s => if s = "" then fallback else s
  | none => fallback

/-- `s || null` for an optional string (empty string is falsy). -/
def jsStrOrNull (a : Option String) : Option String :=
  match a with
  | some s => if s = "" then none else some s
  | none => none

/-- The row written for one product by `processBatch` (both the UPDATE and
the INSERT branch write the same column values).  `detectType` is
`lib/type-detector.js`, which is not part of the source set; the upsert is
parametric in it.  The embedding for the product is computed by the
external embedding service and passed in. -/
def mkStoredRow (ctx : ImportCtx) (detectType : RawProduct → String)
    (embedding : List ℚ) (product : RawProduct) : StoredProduct :=
  let variant := (variantMapOf ctx.variants product.id).getD
    { priceIncl := 0, oldPriceIncl := none, stock := 0, stockSold := 0 }
  { id := product.id
    title := product.title
    full_title := jsStrOr product.fulltitle product.title
    description := product.description.getD ""
    content := product.content.getD ""
    url := product.url
    brand := jsStrOrNull product.brandTitle
    artist := getArtist ctx product
    dimensions := extractDimensions product
    price := variant.priceIncl
    old_price := variant.oldPriceIncl
    stock := variant.stock
    is_visible := product.isVisible
    image := jsStrOrNull product.imageSrc
    stock_sold := variant.stockSold
    type := detectType product
    embedding := embedding }

/-- `INSERT ... ON CONFLICT (...) DO NOTHING` for a join row. -/
def insertIfAbsent (x : Nat × Nat) (l : List (Nat × Nat)) : List (Nat × Nat) :=
  if x ∈ l then l else l ++ [x]

/-- Insert the join rows for one product. -/
def upsertJoins (pid : Nat) (ids : List Nat) (l : List (Nat × Nat)) : List (Nat × Nat) :=
  ids.foldl (fun acc cid => insertIfAbsent (pid, cid) acc) l

/-- The per-product body of `processBatch` (lines 196–281): upsert the
product row (SELECT-then-UPDATE-or-INSERT, both writing the same values),
then insert-if-absent each category and tag join row. -/
def upsertProduct (ctx : ImportCtx) (detectType : RawProduct → String)
    (embedding : List ℚ) (st : Store) (product : RawProduct) : Store :=
  let row := mkStoredRow ctx detectType embedding product
  { products := fun i => if i = product.id then some row else st.products i
    product_categories :=
      upsertJoins product.id (getProductCategories ctx product.id) st.product_categories
    product_tags :=
      upsertJoins product.id (getProductTags ctx product.id) st.product_tags }

/-! ## Theorems -/

theorem ssGe_trans (a b c : Option Int) (hab : ssGe a b = true) (hbc : ssGe b c = true) :
    ssGe a c = true := by
  cases a <;> cases b <;> cases c <;> simp_all [ssGe]
  omega

theorem ssGe_total (a b : Option Int) : ssGe a b || ssGe b a := by
  cases a <;> cases b <;> simp [ssGe]
  omega

theorem rowLe_of_gt (dist : List ℚ → List ℚ → ℚ) (qv : List ℚ) (a b : DbProduct)
    (h : simOf dist qv a > simOf dist qv b) : rowLe dist qv a b = true := by
  simp [rowLe, h]

theorem rowLe_of_eq (dist : List ℚ → List ℚ → ℚ) (qv : List ℚ) (a b : DbProduct)
    (h : simOf dist qv a = simOf dist qv b)
    (hss : ssGe a.row.stock_sold b.row.stock_sold = true) : rowLe dist qv a b = true := by
  simp [rowLe, h, lt_irrefl, hss]

theorem eq_or_gt_of_rowLe (dist : List ℚ → List ℚ → ℚ) (qv : List ℚ) (a b : DbProduct)
    (h : rowLe dist qv a b = true) :
    simOf dist qv a > simOf dist qv b ∨
      (simOf dist qv a = simOf dist qv b ∧ ssGe a.row.stock_sold b.row.stock_sold = true) := by
  unfold rowLe at h
  split_ifs at h with h1 h2
  · exact Or.inl h1
  · exact Or.inr ⟨le_antisymm (not_lt.mp h1) (not_lt.mp h2), h⟩

theorem rowLe_trans (dist : List ℚ → List ℚ → ℚ) (qv : List ℚ) (a b c : DbProduct)
    (hab : rowLe dist qv a b = true) (hbc : rowLe dist qv b c = true) :
    rowLe dist qv a c = true := by
  rcases eq_or_gt_of_rowLe dist qv a b hab with h1 | ⟨h1, g1⟩ <;>
    rcases eq_or_gt_of_rowLe dist qv b c hbc with h2 | ⟨h2, g2⟩
  · exact rowLe_of_gt dist qv a c (lt_trans h2 h1)
  · exact rowLe_of_gt dist qv a c (h2 ▸ h1)
  · exact rowLe_of_gt dist qv a c (h1 ▸ h2)
  · exact rowLe_of_eq dist qv a c (h1.trans h2) (ssGe_trans _ _ _ g1 g2)

theorem rowLe_total (dist : List ℚ → List ℚ → ℚ) (qv : List ℚ) (a b : DbProduct) :
    rowLe dist qv a b || rowLe dist qv b a := by
  rcases lt_trichotomy (simOf dist qv a) (simOf dist qv b) with h | h | h
  · simp [rowLe_of_gt dist qv b a h]
  · rcases Bool.or_eq_true_iff.mp (ssGe_total a.row.stock_sold b.row.stock_sold) with g | g
    · simp [rowLe_of_eq dist qv a b h g]
    · simp [rowLe_of_eq dist qv b a h.symm g]
  · simp [rowLe_of_gt dist qv a b h]

theorem rowLe_imp (dist : List ℚ → List ℚ → ℚ) (qv : List ℚ) (a b : DbProduct)
    (h : rowLe dist qv a b = true) :
    simOf dist qv a ≥ simOf dist qv b ∧
      (simOf dist qv a = simOf dist qv b → ssGe a.row.stock_sold b.row.stock_sold = true) := by
  unfold rowLe at h
  split_ifs at h with h1 h2
  · exact ⟨le_of_lt h1, fun he => absurd he (ne_of_gt h1)⟩
  · exact ⟨le_of_eq (by linarith), fun _ => h⟩

/-- C1: for every query vector (and any distance operator), the similarity
query returns only visible products with a non-null embedding whose
similarity is at least the fixed floor 0.32; the result is ordered by
similarity non-increasing with ties broken by units-sold non-increasing
(`NULLS LAST`), and is capped at 50 items. -/
theorem similarityQuery_filter_ordered_capped
    (dist : List ℚ → List ℚ → ℚ) (qv : List ℚ) (table : List DbProduct) :
    (∀ p ∈ similarityQuery dist qv table,
       p.is_visible = true ∧ p.embedding ≠ none ∧
       simOf dist qv p ≥ SIMILARITY_THRESHOLD) ∧
    (similarityQuery dist qv table).Pairwise
      (fun a b => simOf dist qv a ≥ simOf dist qv b ∧
        (simOf dist qv a = simOf dist qv b →
          ssGe a.row.stock_sold b.row.stock_sold = true)) ∧
    (similarityQuery dist qv table).length ≤ 50 := by
  refine ⟨?_, ?_, ?_⟩
  · intro p hp
    have h1 : p ∈ (table.filter (passesFilter dist qv)).mergeSort (rowLe dist qv) :=
      List.mem_of_mem_take hp
    have h2 : p ∈ table.filter (passesFilter dist qv) :=
      (List.mergeSort_perm (table.filter (passesFilter dist qv)) (rowLe dist qv)).mem_iff.mp h1
    have h3 : passesFilter dist qv p = true := List.of_mem_filter h2
    simp only [passesFilter, Bool.and_eq_true, decide_eq_true_eq, Option.isSome_iff_exists]
      at h3
    obtain ⟨⟨hv, _, hemb⟩, hsim⟩ := h3
    exact ⟨hv, by simp [hemb], hsim⟩
  · have hs : ((table.filter (passesFilter dist qv)).mergeSort (rowLe dist qv)).Pairwise
        (fun a b => rowLe dist qv a b = true) :=
      List.sorted_mergeSort (rowLe_trans dist qv) (rowLe_total dist qv) _
    have ht := hs.sublist (List.take_sublist MAX_RESULTS _)
    exact ht.imp (rowLe_imp dist qv _ _)
  · simp only [similarityQuery, MAX_RESULTS, List.length_take]
    omega

/-- Sample data for the C1 witness. -/
def distZero : List ℚ → List ℚ → ℚ := fun _ _ => 0

def dbRow0 : Row :=
  { id := 1, title := "Kat beeld", full_title := "Kat beeld brons",
    description := "d", url := "u", price := 45, old_price := none,
    image := none, type := "beeld", artist := none, dimensions := none,
    stock := some 3, stock_sold := some 12, similarity := some (68/100),
    category_ids := some [2] }

def dbProd0 : DbProduct := { row := dbRow0, is_visible := true, embedding := some [1] }

/-- C1 witness: the theorem applied to a one-product table whose product
passes the filter. -/
theorem similarityQuery_filter_ordered_capped_witness :
    dbProd0.is_visible = true ∧ dbProd0.embedding ≠ none ∧
      simOf distZero [1] dbProd0 ≥ SIMILARITY_THRESHOLD :=
  (similarityQuery_filter_ordered_capped distZero [1] [dbProd0]).1 dbProd0 (by
    have h : similarityQuery distZero [1] [dbProd0] = [dbProd0] := by
      norm_num [similarityQuery, passesFilter, simOf, distZero, dbProd0,
        SIMILARITY_THRESHOLD, MAX_RESULTS]
    simp [h])

/-- A `getCategoryName` stand-in for concrete sample rows. -/
def catName0 : Nat → String := fun _ => ""

/-- Sample row: current price 65, prior price 50 (prior does not exceed
current). -/
def rowPrior50 : Row :=
  { id := 2, title := "t", full_title := "t", description := "", url := "u",
    price := 65, old_price := some 50, image := none, type := "beeld",
    artist := none, dimensions := none, stock := none, stock_sold := none,
    similarity := none, category_ids := none }

theorem jsRound_eq (q : ℚ) (n : ℤ) (h1 : (n : ℚ) ≤ q + 1/2) (h2 : q + 1/2 < n + 1) :
    jsRound q = n := by
  unfold jsRound
  exact Int.floor_eq_iff.mpr ⟨h1, by linarith⟩

/-- C2 counterexample: with price 65.00 and prior price 50.00 the prior
price exists but does not exceed the current price, yet the discount is
still computed from it — the response carries discount −30, not 0.  This
refutes "the sale flag and discount percentage are computed only when a
prior price exists and exceeds the current price". -/
theorem formatProduct_discount_counterexample :
    (formatProduct catName0 rowPrior50).onSale = false ∧
    (formatProduct catName0 rowPrior50).discount = -30 ∧
    ¬ (formatProduct catName0 rowPrior50).discount = 0 := by
  have hd : (formatProduct catName0 rowPrior50).discount = -30 := by
    show jsRound ((1 - (65:ℚ)/50) * 100) = -30
    apply jsRound_eq <;> norm_num
  exact ⟨by decide, hd, by rw [hd]; decide⟩

/-- C2 (amended): the sale flag is true exactly when a prior price exists
and exceeds the current price.  The discount is 0 when there is no prior
price; whenever a (non-zero) prior price exists — whether or not it
exceeds the current price — the discount is the price change relative to
the prior price in percent, rounded to the nearest whole percent (so it
can be zero or negative when the prior price does not exceed the current
price).  price=65.00 with priorPrice=100.00 yields onSale=true and
discount=35; no priorPrice yields onSale=false and discount=0. -/
theorem formatProduct_sale_discount (getCategoryName : Nat → String) (row : Row) :
    ((formatProduct getCategoryName row).onSale = true ↔
      ∃ op, row.old_price = some op ∧ op > row.price) ∧
    (row.old_price = none →
      (formatProduct getCategoryName row).onSale = false ∧
      (formatProduct getCategoryName row).discount = 0) ∧
    (∀ op, row.old_price = some op → op ≠ 0 →
      (formatProduct getCategoryName row).discount =
        jsRound ((op - row.price) / op * 100)) ∧
    (row.price = 65 ∧ row.old_price = some 100 →
      (formatProduct getCategoryName row).onSale = true ∧
      (formatProduct getCategoryName row).discount = 35) := by
  refine ⟨?_, ?_, ?_, ?_⟩
  · cases h : row.old_price with
    | none => simp [formatProduct, h]
    | some op => simp [formatProduct, h]
  · intro h
    simp [formatProduct, h]
  · intro op h hop
    simp only [formatProduct, h]
    congr 1
    field_simp
  · rintro ⟨hp, ho⟩
    constructor
    · norm_num [formatProduct, ho, hp]
    · have : (formatProduct getCategoryName row).discount =
          jsRound ((1 - row.price / 100) * 100) := by
        simp [formatProduct, ho]
      rw [this, hp]
      apply jsRound_eq <;> norm_num

/-- No character of the list is a digit (hence no measurement pattern can
match: every pattern requires `\d`). -/
def NoDigit (cs : List Char) : Prop := ∀ c ∈ cs, isDigitCh c = false

theorem noDigit_sub {l l' : List Char} (hsub : ∀ c ∈ l', c ∈ l) (h : NoDigit l) :
    NoDigit l' := fun c hc => h c (hsub c hc)

theorem noDigit_tail {c : Char} {l : List Char} (h : NoDigit (c :: l)) : NoDigit l :=
  fun x hx => h x (List.mem_cons_of_mem c hx)

theorem takeWhile_isDigit_nil {cs : List Char} (h : NoDigit cs) :
    cs.takeWhile isDigitCh = [] := by
  cases cs with
  | nil => rfl
  | cons c rest =>
    exact List.takeWhile_cons_of_neg (by simp [h c (List.mem_cons_self c rest)])

theorem span_snd_subset (p : Char → Bool) (cs : List Char) :
    ∀ c ∈ (cs.span p).2, c ∈ cs := by
  rw [List.span_eq_take_drop]
  exact fun c hc => List.dropWhile_subset _ hc

theorem matchNum_eq_none {cs : List Char} (h : NoDigit cs) : matchNum cs = none := by
  simp [matchNum, List.span_eq_take_drop, takeWhile_isDigit_nil h]

theorem matchXDims_eq_none {cs : List Char} (h : NoDigit cs) : matchXDims cs = none := by
  simp [matchXDims, List.span_eq_take_drop, takeWhile_isDigit_nil h]

theorem matchLit_subset : ∀ (k cs r : List Char), matchLit k cs = some r → ∀ c ∈ r, c ∈ cs := by
  intro k
  induction k with
  | nil =>
    intro cs r h c hc
    unfold matchLit at h
    cases h
    exact hc
  | cons kh kt ih =>
    intro cs r h c hc
    cases cs with
    | nil => simp [matchLit] at h
    | cons x rest =>
      unfold matchLit at h
      by_cases hx : x.toLower = kh
      · rw [if_pos hx] at h
        exact List.mem_cons_of_mem x (ih rest r h c hc)
      · rw [if_neg hx] at h
        cases h

theorem p1At_eq_none {cs : List Char} (prev : Option Char) (h : NoDigit cs) :
    p1At prev cs = none := by
  unfold p1At
  split
  · rfl
  · rw [matchXDims_eq_none h]

theorem tryEach_eq_none {α β : Type} (f : α → Option β) (l : List α)
    (h : ∀ a ∈ l, f a = none) : tryEach f l = none := by
  induction l with
  | nil => rfl
  | cons a rest ih =>
    unfold tryEach
    rw [h a (List.mem_cons_self a rest)]
    exact ih (fun x hx => h x (List.mem_cons_of_mem a hx))

theorem p2Try_eq_none {cs : List Char} (kw : List Char) (h : NoDigit cs) :
    p2Try kw cs = none := by
  unfold p2Try
  cases hm : matchLit kw cs with
  | none => rfl
  | some r1 =>
    have h1 : NoDigit r1 := noDigit_sub (matchLit_subset kw cs r1 hm) h
    have h2 : NoDigit ((r1.span (fun c => c = ':' ∨ isSpaceCh c)).2) :=
      noDigit_sub (span_snd_subset _ r1) h1
    simp only [matchNum_eq_none h2]

theorem p2At_eq_none {cs : List Char} (h : NoDigit cs) : p2At cs = none :=
  tryEach_eq_none _ _ (fun kw _ => p2Try_eq_none kw h)

theorem noDigit_dropOptN {cs : List Char} (h : NoDigit cs) : NoDigit (dropOptN cs) := by
  cases cs with
  | nil => exact h
  | cons c rest =>
    unfold dropOptN
    by_cases hc : c.toLower = 'n'
    · simpa [hc] using noDigit_tail h
    · simpa [hc] using h

theorem p3At_eq_none {cs : List Char} (h : NoDigit cs) : p3At cs = none := by
  unfold p3At
  cases hm : matchLit ['a','f','m','e','t','i','n','g','e'] cs with
  | none => rfl
  | some r1 =>
    have h1 : NoDigit r1 := noDigit_sub (matchLit_subset _ cs r1 hm) h
    have h2 : NoDigit (((dropOptN r1).span (fun c => c = ':' ∨ isSpaceCh c)).2) :=
      noDigit_sub (span_snd_subset _ _) (noDigit_dropOptN h1)
    simp only [matchXDims_eq_none h2]

theorem p4Try_eq_none {cs : List Char} (kw : List Char) (h : NoDigit cs) :
    p4Try kw cs = none := by
  unfold p4Try
  cases hm : matchLit kw cs with
  | none => rfl
  | some r1 =>
    have h1 : NoDigit r1 := noDigit_sub (matchLit_subset kw cs r1 hm) h
    have h2 : NoDigit ((r1.span isSpaceCh).2) := noDigit_sub (span_snd_subset _ r1) h1
    simp only [matchNum_eq_none h2]

theorem p4At_eq_none {cs : List Char} (h : NoDigit cs) : p4At cs = none :=
  tryEach_eq_none _ _ (fun kw _ => p4Try_eq_none kw h)

theorem scanPat_eq_none {pAt : List Char → Option (List Char)} {cs : List Char}
    (hp : ∀ cs', NoDigit cs' → pAt cs' = none) (h : NoDigit cs) :
    scanPat pAt cs = none := by
  induction cs with
  | nil => rfl
  | cons c rest ih =>
    unfold scanPat
    rw [hp _ h]
    exact ih (noDigit_tail h)

theorem scanP1_eq_none {cs : List Char} (h : NoDigit cs) :
    ∀ prev, scanP1 prev cs = none := by
  induction cs with
  | nil => intro prev; rfl
  | cons c rest ih =>
    intro prev
    unfold scanP1
    rw [p1At_eq_none prev h]
    exact ih (noDigit_tail h) (some c)

theorem extractDimsFromText_of_noDigit (text : String)
    (h : ∀ c ∈ text.data, isDigitCh c = false) : extractDimsFromText text = none := by
  unfold extractDimsFromText
  simp only [scanP1_eq_none h none,
    scanPat_eq_none (fun cs' h' => p2At_eq_none h') h,
    scanPat_eq_none (fun cs' h' => p3At_eq_none h') h,
    scanPat_eq_none (fun cs' h' => p4At_eq_none h') h]

/-- Sample product whose (HTML-free) description is exactly "Hoogte 24 cm". -/
def prodHoogte : RawProduct :=
  { id := 10, title := "t", fulltitle := none,
    description := some "Hoogte 24 cm", content := none, url := "u",
    brandId := none, brandTitle := none, imageSrc := none, isVisible := true }

/-- Sample product whose description is exactly "100 x 100 x 50 cm". -/
def prodAxes : RawProduct :=
  { id := 11, title := "t", fulltitle := none,
    description := some "100 x 100 x 50 cm", content := none, url := "u",
    brandId := none, brandTitle := none, imageSrc := none, isVisible := true }

/-- Sample product with no measurement in its description. -/
def prodNoMeasure : RawProduct :=
  { id := 12, title := "t", fulltitle := none,
    description := some "Mooi beeld van brons", content := none, url := "u",
    brandId := none, brandTitle := none, imageSrc := none, isVisible := true }

/-- C3 counterexample: on text "100 x 100 x 50 cm" dimension extraction
yields "100 x 100 x 50" — the capture group excludes the `cm` unit and the
`" cm"` suffix is appended only to single-axis values — refuting the
claimed output "100 x 100 x 50 cm". -/
theorem extractDimensions_counterexample :
    extractDimensions prodAxes = some "100 x 100 x 50" ∧
    ¬ extractDimensions prodAxes = some "100 x 100 x 50 cm" := by decide

/-- C3 (amended): text containing "Hoogte 24 cm" yields "24 cm"; text
containing "100 x 100 x 50 cm" yields "100 x 100 x 50" (multi-axis
captures are returned without the `cm` unit); text with no measurement
pattern yields null — in particular any text containing no digit at all. -/
theorem extractDimensions_spec :
    extractDimensions prodHoogte = some "24 cm" ∧
    extractDimensions prodAxes = some "100 x 100 x 50" ∧
    extractDimensions prodNoMeasure = none ∧
    (∀ text : String, (∀ c ∈ text.data, isDigitCh c = false) →
      extractDimsFromText text = none) :=
  ⟨by decide, by decide, by decide, extractDimsFromText_of_noDigit⟩

/-- C3 witness: the universal no-digit clause of the theorem applied to a
concrete digit-free text. -/
theorem extractDimensions_spec_witness :
    extractDimsFromText "Prachtig abstract kunstwerk" = none :=
  extractDimensions_spec.2.2.2 "Prachtig abstract kunstwerk" (by decide)

/-- C4: when the text-generation service fails, the "results"-mode advice
equals the deterministic local fallback — a function of the result count
alone, keyed by the bucket exactly-1 / at-most-10 / more-than-10 — and the
"empty"-mode advice equals the single fixed message; both are non-empty,
so every search that reaches the advice step gets a non-empty advice
string even when generation fails. -/
theorem adviceGeneration_fallback (query : String) (total : Nat) :
    generateAdviceMessage none query total = adviceFallback total ∧
    generateEmptyStateMessage none query = EMPTY_STATE_FALLBACK ∧
    generateAdviceMessage none query total ≠ "" ∧
    generateEmptyStateMessage none query ≠ "" ∧
    adviceFallback 1 = "‚ú® Er is 1 perfect product voor je gevonden!" ∧
    adviceFallback 7 = "üé® Ik heb 7 mooie producten voor je gevonden!" ∧
    adviceFallback 23 =
      "‚ú® Ik heb 23 producten gevonden! Bekijk ze allemaal en vind jouw favoriet." := by
  have hfb : adviceFallback total ≠ "" := by
    unfold adviceFallback
    split_ifs
    · decide
    · intro hEq
      have hlen := congrArg String.length hEq
      simp only [String.length_append] at hlen
      have h1 : ("üé® Ik heb " : String).length = 11 := by decide
      have h0 : ("" : String).length = 0 := by decide
      omega
    · intro hEq
      have hlen := congrArg String.length hEq
      simp only [String.length_append] at hlen
      have h1 : ("‚ú® Ik heb " : String).length = 11 := by decide
      have h0 : ("" : String).length = 0 := by decide
      omega
  refine ⟨rfl, rfl, hfb, ?_, by decide, by decide, by decide⟩
  show EMPTY_STATE_FALLBACK ≠ ""
  decide

/-- C5: a request whose `query` is missing, empty, or not a string gets a
single `success=false` response with status 400 and no external call is
issued (empty trace). -/
theorem handler_rejects_invalid_query (svc : Services) (getCategoryName : Nat → String)
    (body : JsVal) (h : jsTruthy body = false ∨ jsIsString body = false) :
    (runHandler svc getCategoryName body).1.success = false ∧
    (runHandler svc getCategoryName body).1.status = 400 ∧
    (runHandler svc getCategoryName body).2 = [] := by
  have hcond : (!jsTruthy body || !jsIsString body) = true := by
    rcases h with h | h <;> simp [h]
  simp [runHandler, hcond]

def svc0 : Services :=
  { embedResult := none, dist := fun _ _ => 0, table := [], storeFails := false,
    genResult := none }

/-- C5 witness: the theorem applied to a `null` query. -/
theorem handler_rejects_invalid_query_witness :
    (runHandler svc0 catName0 JsVal.vNull).1.success = false ∧
    (runHandler svc0 catName0 JsVal.vNull).1.status = 400 ∧
    (runHandler svc0 catName0 JsVal.vNull).2 = [] :=
  handler_rejects_invalid_query svc0 catName0 JsVal.vNull (Or.inl rfl)

theorem stockSoldOf_eq_getD (row : Row) : stockSoldOf row = row.stock_sold.getD 0 := by
  unfold stockSoldOf
  cases row.stock_sold with
  | none => rfl
  | some n =>
    by_cases h : n = 0
    · simp [h]
    · simp [h]

/-- An all-default row, modified per sample below. -/
def rowBase : Row :=
  { id := 0, title := "", full_title := "", description := "", url := "",
    price := 0, old_price := none, image := none, type := "", artist := none,
    dimensions := none, stock := none, stock_sold := none, similarity := none,
    category_ids := none }

/-- C6: `isPopular` holds exactly when the stored units-sold (0 when NULL)
is at least 50; `isScarce` holds exactly when the stored stock is a number
n with 0 < n ≤ 5.  In particular units-sold 50 is popular, 49 is not;
stock 5 is scarce, stock 0 is not. -/
theorem formatProduct_popular_scarce (getCategoryName : Nat → String) (row : Row) :
    ((formatProduct getCategoryName row).isPopular = true ↔
      row.stock_sold.getD 0 ≥ 50) ∧
    ((formatProduct getCategoryName row).isScarce = true ↔
      ∃ n, row.stock = some n ∧ 0 < n ∧ n ≤ 5) ∧
    (formatProduct catName0 { rowBase with stock_sold := some 50 }).isPopular = true ∧
    (formatProduct catName0 { rowBase with stock_sold := some 49 }).isPopular = false ∧
    (formatProduct catName0 { rowBase with stock := some 5 }).isScarce = true ∧
    (formatProduct catName0 { rowBase with stock := some 0 }).isScarce = false := by
  refine ⟨?_, ?_, by decide, by decide, by decide, by decide⟩
  · have hrfl : (formatProduct getCategoryName row).isPopular =
        decide (stockSoldOf row ≥ POPULAR_SALES_THRESHOLD) := rfl
    rw [hrfl, stockSoldOf_eq_getD]
    simp [POPULAR_SALES_THRESHOLD]
  · have hrfl : (formatProduct getCategoryName row).isScarce =
        (match stockOf row with
         | some n => n > 0 && n ≤ SCARCE_STOCK_THRESHOLD
         | none => false) := rfl
    rw [hrfl]
    unfold stockOf
    cases h : row.stock with
    | none => simp
    | some m =>
      by_cases hm : m = 0
      · subst hm
        simp
      · simp only [if_neg hm]
        constructor
        · intro hb
          simp only [Bool.and_eq_true, decide_eq_true_eq] at hb
          exact ⟨m, rfl, hb.1, by simpa [SCARCE_STOCK_THRESHOLD] using hb.2⟩
        · rintro ⟨n, hn, h1, h2⟩
          cases hn
          simp [SCARCE_STOCK_THRESHOLD, h1, h2]

/-- C9: a stored stock of 0 is formatted as `stock = null` (the falsy
check maps 0 to `null` before the scarcity computation), so the response
is identical to that of a row whose stock is unknown (NULL), and such a
row is never scarce. -/
theorem formatProduct_zero_stock_null (getCategoryName : Nat → String) (row rowN : Row)
    (h : row.stock = some 0) (hN : rowN.stock = none) :
    (formatProduct getCategoryName row).stock = none ∧
    (formatProduct getCategoryName row).stock = (formatProduct getCategoryName rowN).stock ∧
    (formatProduct getCategoryName row).isScarce = false := by
  have h1 : (formatProduct getCategoryName row).stock = stockOf row := rfl
  have h2 : (formatProduct getCategoryName rowN).stock = stockOf rowN := rfl
  have h3 : stockOf row = none := by simp [stockOf, h]
  have h4 : stockOf rowN = none := by simp [stockOf, hN]
  have h5 : (formatProduct getCategoryName row).isScarce =
      (match stockOf row with
       | some n => n > 0 && n ≤ SCARCE_STOCK_THRESHOLD
       | none => false) := rfl
  rw [h1, h2, h5, h3, h4]
  simp

/-- C9 witness: the theorem applied to concrete rows with stock 0 and
stock NULL. -/
theorem formatProduct_zero_stock_null_witness :
    (formatProduct catName0 { rowBase with stock := some 0 }).stock = none ∧
    (formatProduct catName0 { rowBase with stock := some 0 }).stock =
      (formatProduct catName0 rowBase).stock ∧
    (formatProduct catName0 { rowBase with stock := some 0 }).isScarce = false :=
  formatProduct_zero_stock_null catName0 { rowBase with stock := some 0 } rowBase rfl rfl

/-- Sample row: current price 65, prior price 100. -/
def rowPrior100 : Row :=
  { id := 3, title := "t", full_title := "t", description := "", url := "u",
    price := 65, old_price := some 100, image := none, type := "beeld",
    artist := none, dimensions := none, stock := none, stock_sold := none,
    similarity := none, category_ids := none }

/-- C2 witness: the amended theorem applied at price 65 / prior 100 and at
the non-zero-prior discount formula. -/
theorem formatProduct_sale_discount_witness :
    ((formatProduct catName0 rowPrior100).onSale = true ∧
      (formatProduct catName0 rowPrior100).discount = 35) ∧
    (formatProduct catName0 rowPrior100).discount =
      jsRound ((100 - rowPrior100.price) / 100 * 100) :=
  ⟨(formatProduct_sale_discount catName0 rowPrior100).2.2.2 ⟨rfl, rfl⟩,
   (formatProduct_sale_discount catName0 rowPrior100).2.2.1 100 rfl (by norm_num)⟩

theorem insertIfAbsent_of_mem {x : Nat × Nat} {l : List (Nat × Nat)} (h : x ∈ l) :
    insertIfAbsent x l = l := by
  unfold insertIfAbsent
  exact if_pos h

theorem mem_insertIfAbsent_self (x : Nat × Nat) (l : List (Nat × Nat)) :
    x ∈ insertIfAbsent x l := by
  unfold insertIfAbsent
  split_ifs with h
  · exact h
  · simp

theorem mem_insertIfAbsent_of_mem {x : Nat × Nat} (y : Nat × Nat) {l : List (Nat × Nat)}
    (h : x ∈ l) : x ∈ insertIfAbsent y l := by
  unfold insertIfAbsent
  split_ifs
  · exact h
  · simp [h]

theorem mem_upsertJoins_of_mem {pid : Nat} {ids : List Nat} {l : List (Nat × Nat)}
    {x : Nat × Nat} (h : x ∈ l) : x ∈ upsertJoins pid ids l := by
  induction ids generalizing l with
  | nil => exact h
  | cons a rest ih => exact ih (mem_insertIfAbsent_of_mem (pid, a) h)

theorem mem_upsertJoins {pid c : Nat} {ids : List Nat} (l : List (Nat × Nat))
    (h : c ∈ ids) : (pid, c) ∈ upsertJoins pid ids l := by
  induction ids generalizing l with
  | nil => cases h
  | cons a rest ih =>
    rcases List.mem_cons.mp h with h | h
    · rw [h]
      show (pid, a) ∈ upsertJoins pid rest (insertIfAbsent (pid, a) l)
      exact mem_upsertJoins_of_mem (mem_insertIfAbsent_self (pid, a) l)
    · exact ih _ h

theorem upsertJoins_of_mem {pid : Nat} {ids : List Nat} {l : List (Nat × Nat)}
    (h : ∀ c ∈ ids, (pid, c) ∈ l) : upsertJoins pid ids l = l := by
  induction ids with
  | nil => rfl
  | cons a rest ih =>
    have h1 : insertIfAbsent (pid, a) l = l :=
      insertIfAbsent_of_mem (h a (List.mem_cons_self a rest))
    show upsertJoins pid rest (insertIfAbsent (pid, a) l) = l
    rw [h1]
    exact ih (fun c hc => h c (List.mem_cons_of_mem a hc))

theorem upsertJoins_idem (pid : Nat) (ids : List Nat) (l : List (Nat × Nat)) :
    upsertJoins pid ids (upsertJoins pid ids l) = upsertJoins pid ids l :=
  upsertJoins_of_mem (fun _ hc => mem_upsertJoins l hc)

/-- C7: upserting the same catalog record twice with unchanged data is
idempotent — the second upsert leaves the whole store unchanged: the
stored product row is identical in every scalar field and the embedding,
and no category or tag join row is added (hence no duplicates). -/
theorem upsertProduct_idem (ctx : ImportCtx) (detectType : RawProduct → String)
    (embedding : List ℚ) (st : Store) (product : RawProduct) :
    upsertProduct ctx detectType embedding
        (upsertProduct ctx detectType embedding st product) product =
      upsertProduct ctx detectType embedding st product := by
  unfold upsertProduct
  simp only [Store.mk.injEq]
  refine ⟨funext fun i => ?_, upsertJoins_idem _ _ _, upsertJoins_idem _ _ _⟩
  by_cases h : i = product.id
  · simp [h]
  · simp [h]

/-- The empty import context. -/
def ctxEmpty : ImportCtx :=
  { categoriesProducts := [], tagsProducts := [], categories := [], tags := [],
    brands := [], variants := [] }

/-- The empty store. -/
def emptyStore : Store :=
  { products := fun _ => none, product_categories := [], product_tags := [] }

/-- A plain visible product with no variant data. -/
def prodPlain : RawProduct :=
  { id := 77, title := "Beeld", fulltitle := none, description := none,
    content := none, url := "u", brandId := none, brandTitle := none,
    imageSrc := none, isVisible := true }

/-- C10: a visible product with no default variant is not skipped and does
not fail ingestion: it is upserted, with price 0, prior price NULL,
stock 0 and units sold 0 (the `variantMap.get(id) || {...}` default). -/
theorem upsert_missing_variant_defaults (ctx : ImportCtx)
    (detectType : RawProduct → String) (embedding : List ℚ) (st : Store)
    (product : RawProduct) (hvis : product.isVisible = true)
    (h : variantMapOf ctx.variants product.id = none) :
    (upsertProduct ctx detectType embedding st product).products product.id =
      some (mkStoredRow ctx detectType embedding product) ∧
    (mkStoredRow ctx detectType embedding product).price = 0 ∧
    (mkStoredRow ctx detectType embedding product).old_price = none ∧
    (mkStoredRow ctx detectType embedding product).stock = 0 ∧
    (mkStoredRow ctx detectType embedding product).stock_sold = 0 := by
  refine ⟨by simp [upsertProduct], ?_, ?_, ?_, ?_⟩ <;> simp [mkStoredRow, h]

/-- C10 witness: the theorem applied to a concrete product against the
empty context and store. -/
theorem upsert_missing_variant_defaults_witness :
    (upsertProduct ctxEmpty (fun _ => "") [] emptyStore prodPlain).products prodPlain.id =
      some (mkStoredRow ctxEmpty (fun _ => "") [] prodPlain) ∧
    (mkStoredRow ctxEmpty (fun _ => "") [] prodPlain).price = 0 ∧
    (mkStoredRow ctxEmpty (fun _ => "") [] prodPlain).old_price = none ∧
    (mkStoredRow ctxEmpty (fun _ => "") [] prodPlain).stock = 0 ∧
    (mkStoredRow ctxEmpty (fun _ => "") [] prodPlain).stock_sold = 0 :=
  upsert_missing_variant_defaults ctxEmpty (fun _ => "") [] emptyStore prodPlain rfl rfl

theorem jsFilterBoolean_append (a b : List (Option String)) :
    jsFilterBoolean (a ++ b) = jsFilterBoolean a ++ jsFilterBoolean b := by
  unfold jsFilterBoolean
  exact List.filterMap_append a b _

theorem ne_empty_of_mem_jsFilterBoolean {s : String} {l : List (Option String)}
    (h : s ∈ jsFilterBoolean l) : s ≠ "" := by
  unfold jsFilterBoolean at h
  rcases List.mem_filterMap.mp h with ⟨o, _, ho⟩
  cases o with
  | none => cases ho
  | some t =>
    by_cases ht : t = ""
    · simp [ht] at ho
    · simp only [if_neg ht] at ho
      cases ho
      exact ht

theorem jsFilterBoolean_map_some (l : List String) (h : ∀ s ∈ l, s ≠ "") :
    jsFilterBoolean (l.map some) = l := by
  induction l with
  | nil => rfl
  | cons a rest ih =>
    unfold jsFilterBoolean
    simp only [List.map_cons, List.filterMap_cons]
    rw [if_neg (h a (List.mem_cons_self a rest))]
    exact congrArg (a :: ·) (ih (fun s hs => h s (List.mem_cons_of_mem a hs)))

theorem jsFilterBoolean_idem (l : List (Option String)) :
    jsFilterBoolean ((jsFilterBoolean l).map some) = jsFilterBoolean l :=
  jsFilterBoolean_map_some _ (fun _ hs => ne_empty_of_mem_jsFilterBoolean hs)

/-- C8 (amended): the embedding-input text equals the space-joined
concatenation, in order, of title, full title, HTML-stripped description,
HTML-stripped content, resolved brand name, resolved category names and
resolved (visible) tag names — every missing, unresolvable or empty field
omitted — and is finally trimmed of leading/trailing whitespace. -/
theorem buildEmbeddingText_spec (ctx : ImportCtx) (product : RawProduct) :
    buildEmbeddingText ctx product = jsTrimStr (specEmbeddingText ctx product) := by
  unfold buildEmbeddingText specEmbeddingText
  simp only [jsFilterBoolean_append, jsFilterBoolean_idem]

/-- A product whose title has a leading space. -/
def prodPadded : RawProduct :=
  { id := 13, title := " A", fulltitle := none, description := none,
    content := none, url := "u", brandId := none, brandTitle := none,
    imageSrc := none, isVisible := true }

/-- C8 counterexample: for a title with a leading space the built
embedding text is the trimmed "A", not the plain space-joined
concatenation " A" — the claim omits the final trim. -/
theorem buildEmbeddingText_counterexample :
    buildEmbeddingText ctxEmpty prodPadded = "A" ∧
    specEmbeddingText ctxEmpty prodPadded = " A" ∧
    ¬ buildEmbeddingText ctxEmpty prodPadded = specEmbeddingText ctxEmpty prodPadded := by
  decide
